import Mathlib

/-!
Verification of the Agent402 trust-dashboard frontend
(src/frontend/src/app/leaderboard/page.tsx and src/frontend/src/app/page.tsx).

The development shallow-embeds the client-side data-fetch-and-derive
pipeline: the leaderboard listing fetcher (its React state and the
promise chain of its effect), the query builder, and the pure derivation
functions that turn raw counts into percentages, proportional bar widths,
legend entries and filter badges. Real-valued scores and percentages are
modelled as rationals; counts as naturals; the JSON body of a listing
response is modelled by the shapes the code distinguishes (an array, a
non-array JSON value, or an unparsable body whose json() call rejects).
-/

/-- A listing row, `TrustedAgent` from the frontend API types
(fields as consumed by leaderboard/page.tsx). -/
structure TrustedAgent where
  agent_id : ℕ
  name : Option String
  chain : String
  category : Option String
  tier : String
  composite_score : ℚ
  feedback_count : ℕ
deriving DecidableEq

/-- The React state of LeaderboardPage: the five useState slots declared at
the top of the component (agents, loading, category, chain, error).
`stats` is independent secondary data and is not part of the listing
fetcher's state. -/
structure LState where
  agents : List TrustedAgent
  loading : Bool
  category : String
  chain : String
  error : String
deriving DecidableEq

/-- Initial useState values of LeaderboardPage:
agents = [], loading = true, category = "", chain = "", error = "". -/
def initState : LState :=
  { agents := [], loading := true, category := "", chain := "", error := "" }

/-- The JSON body of a listing response, by the shapes the promise chain
distinguishes: a JSON array (Array.isArray true), a well-formed non-array
JSON value (Array.isArray false), or a body on which r.json() rejects. -/
inductive Body where
  | arr (rows : List TrustedAgent)
  | nonArray
  | malformed
deriving DecidableEq

/-- Outcome of a listing fetch: a resolved HTTP response with a status
code and body, or a rejected fetch promise (network failure). -/
inductive FetchResult where
  | http (status : ℕ) (body : Body)
  | networkFailure
deriving DecidableEq

/-- fetch Response.ok: status in the inclusive range 200..299. -/
def isOk (status : ℕ) : Prop := 200 ≤ status ∧ status ≤ 299

instance (status : ℕ) : Decidable (isOk status) :=
  inferInstanceAs (Decidable (200 ≤ status ∧ status ≤ 299))

/-- The resolution of the listing fetch promise chain in
LeaderboardPage's effect:

fetch(...).then(r => if r.status === 402 then (setError advisory; [])
else r.ok ? r.json() : []).then(d => if Array.isArray(d) then setAgents d)
.catch(() => setError "Failed to load").finally(() => setLoading false).

The handlers close over the setState functions only, so resolution
applies to whatever the component state is at resolution time. -/
def resolveFetch (r : FetchResult) (s : LState) : LState :=
  match r with
  | .networkFailure =>
      { s with error := "Failed to load", loading := false }
  | .http status body =>
      if status = 402 then
        { s with error := "Paid endpoint — use x402 SDK", agents := [],
                 loading := false }
      else if isOk status then
        match body with
        | .arr rows => { s with agents := rows, loading := false }
        | .nonArray => { s with loading := false }
        | .malformed => { s with error := "Failed to load", loading := false }
      else
        { s with agents := [], loading := false }

/-- The query built by the listing effect:
URLSearchParams({limit:"50"}), then set("category",category) when the
category string is truthy (non-empty), then set("chain",chain) when the
chain string is truthy; pairs in insertion order. -/
def buildQuery (category chain : String) : List (String × String) :=
  [("limit", "50")]
    ++ (if category ≠ "" then [("category", category)] else [])
    ++ (if chain ≠ "" then [("chain", chain)] else [])

/-- Events driving the listing fetcher: a user selecting a category or a
chain (which updates the filter state and, when the value changed,
re-runs the effect, issuing a new request), and the resolution of some
previously issued fetch. -/
inductive Event where
  | changeCategory (c : String)
  | changeChain (c : String)
  | resolve (r : FetchResult)

/-- Component state together with the log of listing requests issued so
far (each request recorded as its query string pairs). -/
structure Sys where
  st : LState
  issued : List (List (String × String))
deriving DecidableEq

/-- One step of the listing fetcher. Selecting the already-active filter
value is a state-identical update, so React bails out and the effect does
not re-run; otherwise the effect runs: setLoading(true) and one fetch
with the query built from the updated filters. Resolving a fetch applies
the promise chain to the current state and issues nothing. -/
def stepEvent : Event → Sys → Sys
  | .changeCategory c, ⟨s, log⟩ =>
      if s.category = c then ⟨s, log⟩
      else
        ⟨{ s with category := c, loading := true },
         log ++ [buildQuery c s.chain]⟩
  | .changeChain c, ⟨s, log⟩ =>
      if s.chain = c then ⟨s, log⟩
      else
        ⟨{ s with chain := c, loading := true },
         log ++ [buildQuery s.category c]⟩
  | .resolve r, ⟨s, log⟩ => ⟨resolveFetch r s, log⟩

/-- State after mount: initial state, with the effect having run once,
issuing the unfiltered query. -/
def initSys : Sys := ⟨initState, [buildQuery "" ""]⟩

/-- A concrete listing row used in concrete runs. -/
def agentA : TrustedAgent :=
  { agent_id := 1, name := some "Alpha", chain := "base", category := some "defi",
    tier := "gold", composite_score := 90, feedback_count := 12 }

/-- A second concrete listing row, distinct from agentA. -/
def agentB : TrustedAgent :=
  { agent_id := 2, name := some "Beta", chain := "polygon", category := none,
    tier := "silver", composite_score := 55, feedback_count := 3 }

/-- A state in which a previous fetch has already displayed one row. -/
def cexState : LState :=
  { agents := [agentA], loading := true, category := "", chain := "", error := "" }

/-! ## Derivation engine (pure rendering computations) -/

/-- Distribution-map lookup with the JS default:
`dist[key] || 0` over an association list. -/
def lookupCount (m : List (String × ℕ)) (k : String) : ℕ :=
  match m with
  | [] => 0
  | (k', v) :: rest => if k' = k then v else lookupCount rest k

/-- Percentage of total, as computed at every call site:
`total_agents > 0 ? (count / total_agents) * 100 : 0`. -/
def pct (count total : ℕ) : ℚ :=
  if 0 < total then ((count : ℚ) / (total : ℚ)) * 100 else 0

/-- Width applied by ScoreBar in leaderboard/page.tsx:
`Math.min(100, score)`. -/
def scoreBarWidth (score : ℚ) : ℚ := min 100 score

/-- parseFloat of toFixed(1) for a non-negative value: rounding to one
decimal place, ties away from zero. -/
def round1 (q : ℚ) : ℚ := ((⌊q * 10 + 1 / 2⌋ : ℤ) : ℚ) / 10

/-- Modelled from the spec: the canonical tier order `TIER_ORDER`
imported by leaderboard/page.tsx from src/frontend/src/lib/constants.ts,
a file that is not present under src/. The spec fixes it as
`[diamond, platinum, gold, silver, bronze, unranked]`. -/
def TIER_ORDER : List String :=
  ["diamond", "platinum", "gold", "silver", "bronze", "unranked"]

/-- The tier array written inline in page.tsx (lines 209 and 228). -/
def tierOrderHome : List String :=
  ["diamond", "platinum", "gold", "silver", "bronze", "unranked"]

/-- One rendered stacked-bar segment: its tier key, the count shown in
its tooltip, and the width percentage applied to its style. -/
structure Segment where
  tier : String
  count : ℕ
  widthPct : ℚ
deriving DecidableEq

/-- The stacked tier-distribution bar: iterate the given fixed order,
look each tier up in the distribution map with default 0, compute pct,
skip the segment when pct is exactly 0, and otherwise apply
`width: pct%` (no clamping at this call site). -/
def tierSegmentsOf (order : List String) (dist : List (String × ℕ))
    (total : ℕ) : List Segment :=
  order.filterMap fun tier =>
    if pct (lookupCount dist tier) total = 0 then none
    else some ⟨tier, lookupCount dist tier, pct (lookupCount dist tier) total⟩

/-- The tier legend: iterate the fixed order, skip entries whose count
is 0, and otherwise render the tier name with its count. -/
def tierLegendOf (order : List String) (dist : List (String × ℕ)) :
    List (String × ℕ) :=
  order.filterMap fun tier =>
    if lookupCount dist tier = 0 then none
    else some (tier, lookupCount dist tier)

/-- Tier-distribution segments of leaderboard/page.tsx (TIER_ORDER). -/
def tierSegments (dist : List (String × ℕ)) (total : ℕ) : List Segment :=
  tierSegmentsOf TIER_ORDER dist total

/-- Tier legend of leaderboard/page.tsx (TIER_ORDER). -/
def tierLegend (dist : List (String × ℕ)) : List (String × ℕ) :=
  tierLegendOf TIER_ORDER dist

/-- Tier-distribution segments of page.tsx (inline tier array). -/
def homeTierSegments (dist : List (String × ℕ)) (total : ℕ) : List Segment :=
  tierSegmentsOf tierOrderHome dist total

/-- Tier legend of page.tsx (inline tier array). -/
def homeTierLegend (dist : List (String × ℕ)) : List (String × ℕ) :=
  tierLegendOf tierOrderHome dist

/-- The fixed protocol keys rendered by the Protocol Coverage section of
page.tsx. -/
def PROTOCOL_KEYS : List String := ["https", "x402", "8004", "a2a"]

/-- The fixed chain keys rendered by the Chain Coverage section of
page.tsx. -/
def CHAIN_KEYS : List String := ["avalanche", "ethereum", "base", "polygon"]

/-- One rendered coverage card (protocol or chain section of page.tsx):
its key, the count displayed, and the bar width applied,
`Math.min(100, parseFloat(pct))` where pct is the toFixed(1) string. -/
structure CoverageCard where
  key : String
  count : ℕ
  widthPct : ℚ
deriving DecidableEq

/-- Protocol Coverage cards: one card per fixed key, rendered
unconditionally (also at count 0). -/
def protocolCards (counts : List (String × ℕ)) (total : ℕ) :
    List CoverageCard :=
  PROTOCOL_KEYS.map fun k =>
    ⟨k, lookupCount counts k, min 100 (round1 (pct (lookupCount counts k) total))⟩

/-- Chain Coverage cards: one card per fixed key, rendered
unconditionally (also at count 0). -/
def chainCards (counts : List (String × ℕ)) (total : ℕ) :
    List CoverageCard :=
  CHAIN_KEYS.map fun k =>
    ⟨k, lookupCount counts k, min 100 (round1 (pct (lookupCount counts k) total))⟩

/-- The count badge on a chain filter button of leaderboard/page.tsx:
shown only when the slug is truthy (non-empty) and the count is
positive. -/
def chainBadge (chainDist : List (String × ℕ)) (slug : String) : Option ℕ :=
  if slug ≠ "" ∧ 0 < lookupCount chainDist slug
  then some (lookupCount chainDist slug) else none

/-- The count badge on a category filter button of leaderboard/page.tsx:
shown only when the slug is truthy (non-empty) and the count is
positive. -/
def categoryBadge (catCounts : List (String × ℕ)) (slug : String) : Option ℕ :=
  if slug ≠ "" ∧ 0 < lookupCount catCounts slug
  then some (lookupCount catCounts slug) else none

/-! ## Helper lemmas -/

/-- Mapping a left inverse over a filterMap yields a sublist of the
original list. -/
theorem map_filterMap_sublist {α β : Type} (g : β → α) (f : α → Option β)
    (l : List α) (h : ∀ a b, f a = some b → g b = a) :
    ((l.filterMap f).map g).Sublist l := by
  induction l with
  | nil => simp
  | cons a l ih =>
    cases hfa : f a with
    | none =>
      rw [List.filterMap_cons, hfa]
      exact List.Sublist.cons a ih
    | some b =>
      rw [List.filterMap_cons, hfa, List.map_cons, h a b hfa]
      exact List.Sublist.cons₂ a ih

/-- Tier segments depend on the distribution map only through its
lookup function. -/
theorem tierSegmentsOf_congr (order : List String)
    (d1 d2 : List (String × ℕ)) (total : ℕ)
    (h : ∀ k, lookupCount d1 k = lookupCount d2 k) :
    tierSegmentsOf order d1 total = tierSegmentsOf order d2 total := by
  simp [tierSegmentsOf, h]

/-- The tier legend depends on the distribution map only through its
lookup function. -/
theorem tierLegendOf_congr (order : List String)
    (d1 d2 : List (String × ℕ))
    (h : ∀ k, lookupCount d1 k = lookupCount d2 k) :
    tierLegendOf order d1 = tierLegendOf order d2 := by
  simp [tierLegendOf, h]

/-- The tiers of the rendered segments appear in the order of the fixed
iteration list. -/
theorem tierSegmentsOf_tiers_sublist (order : List String)
    (dist : List (String × ℕ)) (total : ℕ) :
    ((tierSegmentsOf order dist total).map Segment.tier).Sublist order := by
  unfold tierSegmentsOf
  apply map_filterMap_sublist
  intro a b hab
  by_cases h0 : pct (lookupCount dist a) total = 0
  · rw [if_pos h0] at hab
    cases hab
  · rw [if_neg h0] at hab
    cases hab
    rfl

/-- The tiers of the rendered legend appear in the order of the fixed
iteration list. -/
theorem tierLegendOf_tiers_sublist (order : List String)
    (dist : List (String × ℕ)) :
    ((tierLegendOf order dist).map Prod.fst).Sublist order := by
  unfold tierLegendOf
  apply map_filterMap_sublist
  intro a b hab
  by_cases h0 : lookupCount dist a = 0
  · rw [if_pos h0] at hab
    cases hab
  · rw [if_neg h0] at hab
    cases hab
    rfl

/-- pct of a zero count is zero whatever the total. -/
theorem pct_zero_count (total : ℕ) : pct 0 total = 0 := by
  simp [pct]

/-! ## Claim theorems -/

/-- The C1 interleaving: mount, the mount fetch resolves empty, the user
selects chain base and then chain polygon, the polygon response (rows
[agentB]) resolves first, and the stale base response (rows [agentA])
resolves last. -/
def staleRun : Sys :=
  stepEvent (.resolve (.http 200 (.arr [agentA])))
    (stepEvent (.resolve (.http 200 (.arr [agentB])))
      (stepEvent (.changeChain "polygon")
        (stepEvent (.changeChain "base")
          (stepEvent (.resolve (.http 200 (.arr []))) initSys))))

/-- The C10 run after the payment-required resolution and the start of
the next fetch attempt (a chain change): the stale advisory has not been
cleared. -/
def retryRunMid : Sys :=
  stepEvent (.changeChain "polygon")
    (stepEvent (.resolve (.http 402 (.arr []))) initSys)

/-- The C10 run after the second attempt resolves successfully with rows
[agentB]. -/
def retryRunEnd : Sys :=
  stepEvent (.resolve (.http 200 (.arr [agentB]))) retryRunMid

/-- C1: the claim says a stale response for filter set F1 resolving after
a later fetch for F2 must never overwrite F2's displayed result. The code
has no cancellation and no staleness check, so it does: in the run below
the user selects chain base and then chain polygon, the polygon response
(rows [agentB]) resolves first, the stale base response (rows [agentA])
resolves last, and the displayed listing ends as [agentA] — the base
result — while the active filter set is chain polygon. The issued-query
log confirms the interleaving. -/
theorem c1_stale_overwrite :
    (staleRun.st.agents = [agentA] ∧
     staleRun.st.chain = "polygon" ∧
     staleRun.issued
       = [[("limit", "50")],
          [("limit", "50"), ("chain", "base")],
          [("limit", "50"), ("chain", "polygon")]] ∧
     ([agentA] : List TrustedAgent) ≠ [agentB]) := by
  decide

/-- C2 counterexample: the claim says a network failure or an HTTP
non-ok, non-402 status makes the status failed with a generic message
and clears previously displayed rows. At HTTP 500 the code sets no error
message at all, and at a network failure it leaves the previously
displayed row [agentA] in place. -/
theorem c2_counterexample :
    (resolveFetch (.http 500 (.arr [])) cexState).error = "" ∧
    (resolveFetch .networkFailure cexState).agents = [agentA] ∧
    ([agentA] : List TrustedAgent) ≠ [] := by
  decide

/-- C2 amended: an HTTP non-ok, non-402 response clears the listing to
empty, leaves the error message unchanged (no failure banner) and clears
the loading flag; a network failure sets the error message
"Failed to load" and clears loading but leaves previously displayed rows
unchanged. -/
theorem c2_failure_behavior (s : LState) (status : ℕ) (b : Body)
    (hnok : ¬ isOk status) (h402 : status ≠ 402) :
    (resolveFetch (.http status b) s).agents = [] ∧
    (resolveFetch (.http status b) s).error = s.error ∧
    (resolveFetch (.http status b) s).loading = false ∧
    (resolveFetch .networkFailure s).error = "Failed to load" ∧
    (resolveFetch .networkFailure s).agents = s.agents ∧
    (resolveFetch .networkFailure s).loading = false := by
  simp [resolveFetch, h402, hnok]

/-- C2 witness: the amended behavior at HTTP 500 on a state displaying
one row. -/
theorem c2_failure_witness :
    (resolveFetch (.http 500 (.arr [])) cexState).agents = [] ∧
    (resolveFetch .networkFailure cexState).error = "Failed to load" := by
  have h := c2_failure_behavior cexState 500 (.arr []) (by decide) (by decide)
  exact ⟨h.1, h.2.2.2.1⟩

/-- C3 counterexample: the claim says an HTTP-success response with a
non-array body leaves the listing state empty. On a state already
displaying [agentA], the code skips setAgents entirely and the previous
row remains. -/
theorem c3_counterexample :
    (resolveFetch (.http 200 .nonArray) cexState).agents = [agentA] ∧
    ([agentA] : List TrustedAgent) ≠ [] := by
  decide

/-- C3 amended: an HTTP-success response with a non-array body leaves the
listing state unchanged (setAgents is never called), clears the loading
flag and does not crash; from the initial state the listing is therefore
the empty listing, as in the no-agents render. -/
theorem c3_nonarray_keeps_state (s : LState) (status : ℕ) (hok : isOk status) :
    (resolveFetch (.http status .nonArray) s).agents = s.agents ∧
    (resolveFetch (.http status .nonArray) s).error = s.error ∧
    (resolveFetch (.http status .nonArray) s).loading = false ∧
    (resolveFetch (.http 200 .nonArray) initState).agents = [] := by
  have h402 : status ≠ 402 := by
    rcases hok with ⟨h1, h2⟩
    omega
  refine ⟨?_, ?_, ?_, by decide⟩ <;> simp [resolveFetch, hok, h402]

/-- C3 witness: the amended behavior at HTTP 200 on a state displaying
one row. -/
theorem c3_nonarray_witness :
    (resolveFetch (.http 200 .nonArray) cexState).agents = cexState.agents := by
  exact (c3_nonarray_keeps_state cexState 200 (by decide)).1

/-- C4: resolving a listing fetch with HTTP 402 empties the listing, sets
the fixed payment-required advisory, clears the loading flag, and issues
no further request (no automatic payment or retry). -/
theorem c4_payment_required (sys : Sys) (b : Body) :
    (stepEvent (.resolve (.http 402 b)) sys).st.agents = [] ∧
    (stepEvent (.resolve (.http 402 b)) sys).st.error
      = "Paid endpoint — use x402 SDK" ∧
    (stepEvent (.resolve (.http 402 b)) sys).st.loading = false ∧
    (stepEvent (.resolve (.http 402 b)) sys).issued = sys.issued := by
  obtain ⟨s, log⟩ := sys
  simp [stepEvent, resolveFetch]

/-- C6: the percentage-of-total computation equals 100 * count / total
when the total is positive and equals 0 when the total is 0; the guard
means division by zero is never taken. -/
theorem c6_pct_total_guard (count total : ℕ) :
    (0 < total → pct count total = 100 * count / total) ∧ pct count 0 = 0 := by
  constructor
  · intro h
    simp only [pct, if_pos h]
    ring
  · simp [pct]

/-- C6 witness: pct at 3 of 4 and at 3 of 0. -/
theorem c6_pct_witness : pct 3 4 = 75 ∧ pct 3 0 = 0 := by
  obtain ⟨h1, h2⟩ := c6_pct_total_guard 3 4
  refine ⟨?_, h2⟩
  rw [h1 (by norm_num)]
  norm_num

/-- C7: the listing query always carries limit=50; it contains a
category parameter iff the category selection is non-empty and a chain
parameter iff the chain selection is non-empty, and any such parameter
carries exactly the selected (non-empty) value — an empty selection is
omitted, never sent as an empty string. -/
theorem c7_query_params (category chain : String) :
    ("limit", "50") ∈ buildQuery category chain ∧
    ((∃ v, ("category", v) ∈ buildQuery category chain) ↔ category ≠ "") ∧
    ((∃ v, ("chain", v) ∈ buildQuery category chain) ↔ chain ≠ "") ∧
    (∀ v, ("category", v) ∈ buildQuery category chain → v = category) ∧
    (∀ v, ("chain", v) ∈ buildQuery category chain → v = chain) := by
  by_cases hc : category = "" <;> by_cases hh : chain = "" <;>
    simp +decide [buildQuery, hc, hh]

/-- C7 witness: the query for category defi with no chain filter. -/
theorem c7_query_witness :
    ("limit", "50") ∈ buildQuery "defi" "" ∧
    ((∃ v, ("category", v) ∈ buildQuery "defi" "") ↔ ("defi" : String) ≠ "") ∧
    ((∃ v, ("chain", v) ∈ buildQuery "defi" "") ↔ ("" : String) ≠ "") := by
  obtain ⟨h1, h2, h3, _, _⟩ := c7_query_params "defi" ""
  exact ⟨h1, h2, h3⟩

/-- C10: the claim says every new fetch attempt resets the fetcher
status, clearing a prior error message before the new request resolves.
The code only sets loading to true and never clears the error string: in
the run below a 402 resolution sets the advisory, a subsequent chain
change starts a new attempt with loading true but the advisory still
set, and after that attempt resolves successfully with rows [agentB] the
stale advisory is still displayed alongside the new result. -/
theorem c10_error_not_cleared :
    (retryRunMid.st.loading = true ∧
     retryRunMid.st.error = "Paid endpoint — use x402 SDK" ∧
     retryRunEnd.st.agents = [agentB] ∧
     retryRunEnd.st.error = "Paid endpoint — use x402 SDK") := by
  decide

/-- C5 counterexample: the claim says every rendered proportional bar is
clamped to min(100, pct). A tier-distribution segment for a count of 150
out of a total of 100 is rendered with width 150, above 100. -/
theorem c5_counterexample :
    (tierSegments [("gold", 150)] 100).map Segment.widthPct = [150] ∧
    ¬ ((150 : ℚ) ≤ 100) := by
  refine ⟨?_, by norm_num⟩
  norm_num [tierSegments, tierSegmentsOf, TIER_ORDER, lookupCount, pct,
    List.filterMap_cons]
  decide

/-- C5 amended: the per-agent score bar and the protocol and chain
coverage bars apply widths clamped to at most 100, but a
tier-distribution segment applies the raw pct of its count as its width,
with no clamping. -/
theorem c5_clamping (score : ℚ) (order : List String)
    (counts dist : List (String × ℕ)) (total : ℕ) :
    scoreBarWidth score ≤ 100 ∧
    (∀ c ∈ protocolCards counts total, c.widthPct ≤ 100) ∧
    (∀ c ∈ chainCards counts total, c.widthPct ≤ 100) ∧
    (∀ sg ∈ tierSegmentsOf order dist total, sg.widthPct = pct sg.count total) := by
  refine ⟨min_le_left _ _, ?_, ?_, ?_⟩
  · intro c hc
    simp only [protocolCards, List.mem_map] at hc
    obtain ⟨k, hk, rfl⟩ := hc
    exact min_le_left _ _
  · intro c hc
    simp only [chainCards, List.mem_map] at hc
    obtain ⟨k, hk, rfl⟩ := hc
    exact min_le_left _ _
  · intro sg hsg
    rw [tierSegmentsOf, List.mem_filterMap] at hsg
    obtain ⟨t, ht, heq⟩ := hsg
    by_cases h0 : pct (lookupCount dist t) total = 0
    · rw [if_pos h0] at heq
      cases heq
    · rw [if_neg h0] at heq
      cases heq
      rfl

/-- C5 witness: an out-of-range score is still rendered at width at most
100 by the score bar. -/
theorem c5_clamping_witness : scoreBarWidth 120 ≤ 100 :=
  (c5_clamping 120 [] [] [] 0).1

/-- C8: both tier-distribution renders iterate a fixed canonical order —
the spec-modelled TIER_ORDER of leaderboard/page.tsx and the identical
inline array of page.tsx — so segments and legend entries depend on the
distribution map only through lookups (never on its native iteration
order) and are rendered left-to-right as a sublist of
[diamond, platinum, gold, silver, bronze, unranked]. -/
theorem c8_tier_order (d1 d2 : List (String × ℕ)) (total : ℕ)
    (h : ∀ k, lookupCount d1 k = lookupCount d2 k) :
    TIER_ORDER = tierOrderHome ∧
    tierSegments d1 total = tierSegments d2 total ∧
    homeTierSegments d1 total = homeTierSegments d2 total ∧
    tierLegend d1 = tierLegend d2 ∧
    homeTierLegend d1 = homeTierLegend d2 ∧
    ((tierSegments d1 total).map Segment.tier).Sublist TIER_ORDER ∧
    ((tierLegend d1).map Prod.fst).Sublist TIER_ORDER ∧
    ((homeTierSegments d1 total).map Segment.tier).Sublist tierOrderHome ∧
    ((homeTierLegend d1).map Prod.fst).Sublist tierOrderHome :=
  ⟨rfl,
   tierSegmentsOf_congr TIER_ORDER d1 d2 total h,
   tierSegmentsOf_congr tierOrderHome d1 d2 total h,
   tierLegendOf_congr TIER_ORDER d1 d2 h,
   tierLegendOf_congr tierOrderHome d1 d2 h,
   tierSegmentsOf_tiers_sublist TIER_ORDER d1 total,
   tierLegendOf_tiers_sublist TIER_ORDER d1,
   tierSegmentsOf_tiers_sublist tierOrderHome d1 total,
   tierLegendOf_tiers_sublist tierOrderHome d1⟩

/-- C8 witness: two association lists holding the same mapping in
different iteration orders render the same segments, in canonical
order. -/
theorem c8_tier_order_witness :
    tierSegments [("gold", 1), ("silver", 2)] 3
      = tierSegments [("silver", 2), ("gold", 1)] 3 ∧
    ((tierLegend [("gold", 1), ("silver", 2)]).map Prod.fst).Sublist
      TIER_ORDER := by
  have hne : ¬ ("silver" : String) = "gold" := by decide
  have hne2 : ¬ ("gold" : String) = "silver" := by decide
  have h : ∀ k, lookupCount [("gold", 1), ("silver", 2)] k
      = lookupCount [("silver", 2), ("gold", 1)] k := by
    intro k
    by_cases h1 : "gold" = k
    · subst h1
      simp [lookupCount, hne]
    · by_cases h2 : "silver" = k
      · subst h2
        simp [lookupCount, hne2]
      · simp [lookupCount, h1, h2]
  have hc := c8_tier_order [("gold", 1), ("silver", 2)]
    [("silver", 2), ("gold", 1)] 3 h
  exact ⟨hc.2.1, hc.2.2.2.2.2.2.1⟩

/-- C9 counterexample: the claim says a count-0 entry of any
distribution map is absent from the rendered output. The Protocol
Coverage section of page.tsx renders one card per fixed key
unconditionally: with x402 at count 5 and every other protocol absent
from the map, the https, 8004 and a2a cards are still rendered with
zero-count labels. -/
theorem c9_counterexample :
    (protocolCards [("x402", 5)] 5).map (fun c => (c.key, c.count))
      = [("https", 0), ("x402", 5), ("8004", 0), ("a2a", 0)] := by
  decide

/-- C9 amended: a count-0 entry is omitted from the tier legend, the
tier-distribution segments, and the chain and category filter-badge
counts; but the protocol and chain coverage sections of page.tsx render
all of their fixed keys unconditionally, zero counts included. -/
theorem c9_zero_suppression (order : List String)
    (dist chainDist catCounts pCounts : List (String × ℕ)) (total : ℕ)
    (t sl cat : String) :
    (lookupCount dist t = 0 → t ∉ (tierLegendOf order dist).map Prod.fst) ∧
    (lookupCount dist t = 0 →
      t ∉ (tierSegmentsOf order dist total).map Segment.tier) ∧
    (lookupCount chainDist sl = 0 → chainBadge chainDist sl = none) ∧
    (lookupCount catCounts cat = 0 → categoryBadge catCounts cat = none) ∧
    (protocolCards pCounts total).map CoverageCard.key = PROTOCOL_KEYS ∧
    (chainCards pCounts total).map CoverageCard.key = CHAIN_KEYS := by
  refine ⟨?_, ?_, ?_, ?_, rfl, rfl⟩
  · intro h0 hmem
    rw [tierLegendOf, List.mem_map] at hmem
    obtain ⟨p, hp, hfst⟩ := hmem
    rw [List.mem_filterMap] at hp
    obtain ⟨a, _, heq⟩ := hp
    by_cases hz : lookupCount dist a = 0
    · rw [if_pos hz] at heq
      cases heq
    · rw [if_neg hz] at heq
      cases heq
      simp only at hfst
      rw [hfst] at hz
      exact hz h0
  · intro h0 hmem
    rw [tierSegmentsOf, List.mem_map] at hmem
    obtain ⟨p, hp, hfst⟩ := hmem
    rw [List.mem_filterMap] at hp
    obtain ⟨a, _, heq⟩ := hp
    by_cases hz : pct (lookupCount dist a) total = 0
    · rw [if_pos hz] at heq
      cases heq
    · rw [if_neg hz] at heq
      cases heq
      simp only at hfst
      rw [hfst] at hz
      rw [h0, pct_zero_count] at hz
      exact hz rfl
  · intro h0
    simp [chainBadge, h0]
  · intro h0
    simp [categoryBadge, h0]

/-- C9 witness: a tier absent from the map renders no legend entry, and
a chain with count 0 renders no filter badge. -/
theorem c9_zero_witness :
    ("bronze" ∉ (tierLegendOf TIER_ORDER [("gold", 1)]).map Prod.fst) ∧
    chainBadge [("base", 0)] "base" = none := by
  have h := c9_zero_suppression TIER_ORDER [("gold", 1)] [("base", 0)]
    [] [] 5 "bronze" "base" "x"
  exact ⟨h.1 (by decide), h.2.2.1 (by decide)⟩
